import Mathlib

/-!
# Verification of the forestry dashboard record-editor pattern

Shallow embedding of the two source pages of the repository:

* the admin courses page (`AdminCoursesPage`): client cache of courses /
  lecturers / departments, a modal create-or-edit form, and axios-based
  CRUD handlers;
* the admin dashboard page (`AdminDashboardPage`): announcement list,
  dialog create-or-edit form, fetch-based CRUD handlers;
* the student dashboard page (`StudentDashboard`): read-only
  announcement fetch.

Each React event handler is translated to a pure function from the page
state (the collection of `useState` hooks) and the outcome of the
asynchronous backend call to the new page state together with an
`Effects` record listing the HTTP requests issued, the user-visible
notifications (toast / alert strings), the console log messages, and
whether `location.reload()` was invoked.

Backend-call outcomes are modelled three-valued: `success` (resolved,
HTTP ok), `httpError` (resolved with a failure status), `networkError`
(the promise rejected).  axios rejects on both `httpError` and
`networkError`; `fetch` rejects only on `networkError` and reports the
status through `res.ok`, which the code may or may not inspect.
-/

namespace Forestry

/-- Outcome of an asynchronous backend call. -/
inductive Outcome where
  | success
  | httpError
  | networkError
deriving DecidableEq, Repr

/-- HTTP method of a request. -/
inductive Method where
  | GET
  | POST
  | PUT
  | DELETE
deriving DecidableEq, Repr

/-- A JavaScript number as used by the course form: either NaN or an
ordinary numeric value (no arithmetic is performed on it, so an integer
carrier suffices). -/
inductive NumVal where
  | nan
  | num (n : Int)
deriving DecidableEq, Repr

/-- `LecturerPopulated` from the source: an expanded lecturer reference. -/
structure LecturerPopulated where
  _id : String
  fullName : Option String := none
  email : Option String := none
  name : Option String := none
deriving DecidableEq, Repr

/-- `DepartmentPopulated` from the source. -/
structure DepartmentPopulated where
  _id : String
  name : String
deriving DecidableEq, Repr

/-- `LevelPopulated` from the source. -/
structure LevelPopulated where
  _id : String
  name : String
deriving DecidableEq, Repr

/-- A foreign-key field as the backend may return it: either a bare
identifier string or an expanded (populated) object. -/
inductive FKField (α : Type) where
  | raw (s : String)
  | pop (o : α)
deriving DecidableEq, Repr

/-- The `Course` record type from the source. -/
structure Course where
  _id : String
  courseCode : String
  courseTitle : String
  creditUnits : NumVal
  lecturer : FKField LecturerPopulated
  level : FKField LevelPopulated
  semester : String
  department : FKField DepartmentPopulated
deriving DecidableEq, Repr

/-- Dropdown lecturer entry (`Lecturer` in the source). -/
structure Lecturer where
  _id : String
  name : String
deriving DecidableEq, Repr

/-- Dropdown department entry (`Department` in the source). -/
structure Department where
  _id : String
  name : String
deriving DecidableEq, Repr

/-- The body of an HTTP request issued by the pages. -/
inductive ReqBody where
  | empty
  | course (courseCode courseTitle : String) (creditUnits : NumVal)
      (lecturer level semester department : String)
  | ann (title message : String)
deriving DecidableEq, Repr

/-- An HTTP request: method, URL, optional `Authorization` header value,
and body.  Course-page requests go through the shared axios instance
(`lib/axios`, whose file is not part of the two source pages); following
the specification, which states the bearer token is attached only to
announcement mutation calls, axios requests carry no Authorization
header. -/
structure Request where
  method : Method
  url : String
  auth : Option String := none
  body : ReqBody := ReqBody.empty
deriving DecidableEq, Repr

/-- Observable side effects of one handler invocation. -/
structure Effects where
  requests : List Request := []
  notes : List String := []
  logs : List String := []
  reload : Bool := false
deriving DecidableEq, Repr

/-- No side effects at all. -/
def Effects.none : Effects := {}

/-! ## Admin courses page (`AdminCoursesPage`) -/

/-- The `useState` hooks of `AdminCoursesPage`, flattened into a record. -/
structure CoursePageState where
  courses : List Course
  lecturers : List Lecturer
  departments : List Department
  isModalOpen : Bool
  loading : Bool
  courseCode : String
  courseTitle : String
  creditUnits : NumVal
  lecturer : String
  level : String
  semester : String
  department : String
  editId : Option String
deriving DecidableEq, Repr

/-- The initial `useState` values of `AdminCoursesPage`. -/
def initCourseState : CoursePageState :=
  { courses := [], lecturers := [], departments := []
    isModalOpen := false, loading := false
    courseCode := "", courseTitle := "", creditUnits := NumVal.num 0
    lecturer := "", level := "", semester := "", department := ""
    editId := none }

def coursesUrl : String := "https://forestryapi.onrender.com/courses"
def lecturersUrl : String := "https://forestryapi.onrender.com/lecturers"
def departmentsUrl : String := "https://forestryapi.onrender.com/departments"

/-- `fetchCourses`: GET the full course collection via axios; on success
replace `courses` wholesale, on any failure (axios throws on both a
rejected promise and an HTTP error status) show a toast and leave the
collection untouched.  `loading` is set true and finally false. -/
def fetchCourses (st : CoursePageState) (o : Outcome) (data : List Course) :
    CoursePageState × Effects :=
  match o with
  | Outcome.success =>
      ({ st with courses := data, loading := false },
       { requests := [{ method := Method.GET, url := coursesUrl }] })
  | _ =>
      ({ st with loading := false },
       { requests := [{ method := Method.GET, url := coursesUrl }]
         notes := ["Failed to fetch courses."] })

/-- `fetchLecturers`: GET the lecturer reference list via axios. -/
def fetchLecturers (st : CoursePageState) (o : Outcome) (data : List Lecturer) :
    CoursePageState × Effects :=
  match o with
  | Outcome.success =>
      ({ st with lecturers := data },
       { requests := [{ method := Method.GET, url := lecturersUrl }] })
  | _ =>
      (st,
       { requests := [{ method := Method.GET, url := lecturersUrl }]
         notes := ["Failed to fetch lecturers."] })

/-- `fetchDepartments`: GET the department reference list via axios. -/
def fetchDepartments (st : CoursePageState) (o : Outcome) (data : List Department) :
    CoursePageState × Effects :=
  match o with
  | Outcome.success =>
      ({ st with departments := data },
       { requests := [{ method := Method.GET, url := departmentsUrl }] })
  | _ =>
      (st,
       { requests := [{ method := Method.GET, url := departmentsUrl }]
         notes := ["Failed to fetch departments."] })

/-- `resetForm`: clear every form field (strings to empty, `creditUnits`
to `0`, `editId` to `null`). -/
def resetForm (st : CoursePageState) : CoursePageState :=
  { st with
    editId := none, courseCode := "", courseTitle := ""
    creditUnits := NumVal.num 0, lecturer := "", level := ""
    semester := "", department := "" }

/-- `closeModal`: hide the modal and reset the form. -/
def closeModal (st : CoursePageState) : CoursePageState :=
  resetForm { st with isModalOpen := false }

/-- `openModal`: with a course, populate the form from the record,
normalizing each foreign-key field with the source ternary
`typeof field === 'object' ? field._id : field`; without a course,
reset the form.  Either way the modal opens. -/
def openModal (st : CoursePageState) (c? : Option Course) : CoursePageState :=
  match c? with
  | some c =>
      { st with
        editId := some c._id
        courseCode := c.courseCode
        courseTitle := c.courseTitle
        creditUnits := c.creditUnits
        lecturer := (match c.lecturer with
          | FKField.pop o => o._id
          | FKField.raw s => s)
        level := (match c.level with
          | FKField.pop o => o._id
          | FKField.raw s => s)
        semester := c.semester
        department := (match c.department with
          | FKField.pop o => o._id
          | FKField.raw s => s)
        isModalOpen := true }
  | none => { resetForm st with isModalOpen := true }

/-- The validation condition of the course `handleSubmit`:
`!courseCode || !courseTitle || isNaN(creditUnits)`. -/
def courseFormInvalid (st : CoursePageState) : Prop :=
  st.courseCode = "" ∨ st.courseTitle = "" ∨ st.creditUnits = NumVal.nan

instance (st : CoursePageState) : Decidable (courseFormInvalid st) := by
  unfold courseFormInvalid; infer_instance

/-- The `courseData` object built by the course `handleSubmit`. -/
def courseDataOf (st : CoursePageState) : ReqBody :=
  ReqBody.course st.courseCode st.courseTitle st.creditUnits
    st.lecturer st.level st.semester st.department

/-- `handleSubmit` of the courses page.  Validation first; then a PUT to
`/courses/:editId` when `editId` is set, else a POST to `/courses`; on
success a success toast, a `fetchCourses()` refetch (with its own
outcome `ro` and data `rd`) and `closeModal()`; on failure (axios throws
on HTTP error and on rejection alike) a failure toast with state
untouched. -/
def handleSubmitCourses (st : CoursePageState) (o ro : Outcome) (rd : List Course) :
    CoursePageState × Effects :=
  if courseFormInvalid st then
    (st, { notes := ["Please fill in all required fields."] })
  else
    let req : Request :=
      match st.editId with
      | some id =>
          { method := Method.PUT, url := coursesUrl ++ "/" ++ id, body := courseDataOf st }
      | none =>
          { method := Method.POST, url := coursesUrl, body := courseDataOf st }
    let okNote : String :=
      match st.editId with
      | some _ => "Course updated."
      | none => "Course created."
    match o with
    | Outcome.success =>
        let r := fetchCourses st ro rd
        (closeModal r.1,
         { requests := req :: r.2.requests
           notes := okNote :: r.2.notes
           logs := r.2.logs })
    | _ =>
        (st, { requests := [req], notes := ["Failed to save course."] })

/-- `handleDelete` of the courses page: `window.confirm` first (declining
issues nothing); then an axios DELETE; on success a toast and a
`fetchCourses()` refetch, on failure a failure toast. -/
def handleDeleteCourses (st : CoursePageState) (id : String) (confirmed : Bool)
    (o ro : Outcome) (rd : List Course) : CoursePageState × Effects :=
  if confirmed then
    let req : Request := { method := Method.DELETE, url := coursesUrl ++ "/" ++ id }
    match o with
    | Outcome.success =>
        let r := fetchCourses st ro rd
        (r.1,
         { requests := req :: r.2.requests
           notes := "Course deleted." :: r.2.notes
           logs := r.2.logs })
    | _ =>
        (st, { requests := [req], notes := ["Failed to delete course."] })
  else
    (st, Effects.none)

/-! ## Admin dashboard page (`AdminDashboardPage`) -/

/-- The `Announcement` record type from the source. -/
structure Announcement where
  _id : String
  title : String
  message : String
  createdAt : String
deriving DecidableEq, Repr

/-- The `useState` hooks of `AdminDashboardPage` that the claims concern,
flattened into a record. -/
structure AdminDashState where
  announcements : List Announcement
  title : String
  message : String
  submitting : Bool
  editId : Option String
deriving DecidableEq, Repr

/-- The initial `useState` values of `AdminDashboardPage`. -/
def initAdminDashState : AdminDashState :=
  { announcements := [], title := "", message := ""
    submitting := false, editId := none }

def annUrl : String := "https://forestryapi.onrender.com/announcements"

/-- The JavaScript template string `Bearer ${token}` applied to
`localStorage.getItem("adminToken")`, which is a string or `null`
(interpolating `null` yields the literal text `null`). -/
def bearerValue : Option String → String
  | some t => "Bearer " ++ t
  | none => "Bearer null"

/-- `fetchAnnouncements` of the admin dashboard: a `fetch` GET whose
parsed JSON replaces `announcements`; `res.ok` is never inspected, so
only a rejected promise (`networkError`) reaches the catch branch, which
merely logs to the console. -/
def fetchAnnouncementsAdmin (st : AdminDashState) (o : Outcome)
    (data : List Announcement) : AdminDashState × Effects :=
  match o with
  | Outcome.networkError =>
      (st, { requests := [{ method := Method.GET, url := annUrl }]
             logs := ["Error fetching announcements"] })
  | _ =>
      ({ st with announcements := data },
       { requests := [{ method := Method.GET, url := annUrl }] })

/-- The announcement edit button `onClick`: copy title and message into
the draft and set `editId` to the record identifier. -/
def annEditClick (st : AdminDashState) (a : Announcement) : AdminDashState :=
  { st with title := a.title, message := a.message, editId := some a._id }

/-- Closing the announcements `Dialog`.  The JSX registers no
close/cancel handler on the dialog (no `onOpenChange`, no cancel
button), so dismissing it runs no page code: every `useState` value,
`editId` and the draft included, is left unchanged. -/
def annDialogClose (st : AdminDashState) : AdminDashState := st

/-- `handleSubmit` of the admin dashboard: validate `title`/`message`
non-empty; then a `fetch` PUT to `/announcements/:editId` when `editId`
is set, else a POST, both with a `Content-Type` and an `Authorization:
Bearer ${token}` header; on `res.ok` an alert, draft and `editId`
cleared, and `location.reload()`; on a non-ok response an alert with the
server `error` field (or a generic text); on rejection the catch alert.
`submitting` ends false in every branch past validation. -/
def handleSubmitAnn (st : AdminDashState) (token : Option String)
    (o : Outcome) (errMsg : Option String) : AdminDashState × Effects :=
  if st.title = "" ∨ st.message = "" then
    (st, { notes := ["Fill in all fields."] })
  else
    let req : Request :=
      match st.editId with
      | some id =>
          { method := Method.PUT, url := annUrl ++ "/" ++ id
            auth := some (bearerValue token)
            body := ReqBody.ann st.title st.message }
      | none =>
          { method := Method.POST, url := annUrl
            auth := some (bearerValue token)
            body := ReqBody.ann st.title st.message }
    match o with
    | Outcome.success =>
        ({ st with
           title := "", message := "", editId := none, submitting := false },
         { requests := [req]
           notes := [match st.editId with
             | some _ => "Announcement updated"
             | none => "Announcement created"]
           reload := true })
    | Outcome.httpError =>
        ({ st with submitting := false },
         { requests := [req], notes := [errMsg.getD "Failed to submit"] })
    | Outcome.networkError =>
        ({ st with submitting := false },
         { requests := [req], notes := ["Server error"] })

/-- `handleDelete` of the admin dashboard: `confirm` first; then a
`fetch` DELETE with no headers at all.  The response is never inspected
(`res.ok` unchecked), so a resolved promise — HTTP error status
included — reaches the success alert and `location.reload()`; only a
rejected promise reaches the catch alert. -/
def handleDeleteAnn (st : AdminDashState) (id : String) (confirmed : Bool)
    (o : Outcome) : AdminDashState × Effects :=
  if confirmed then
    let req : Request := { method := Method.DELETE, url := annUrl ++ "/" ++ id }
    match o with
    | Outcome.networkError =>
        (st, { requests := [req], notes := ["Delete failed"] })
    | _ =>
        (st, { requests := [req], notes := ["Deleted"], reload := true })
  else
    (st, Effects.none)

/-! ## Student dashboard page (`StudentDashboard`) -/

/-- The `useState` hooks of `StudentDashboard`. -/
structure StudentDashState where
  announcements : List Announcement
  loading : Bool
deriving DecidableEq, Repr

/-- The initial `useState` values of `StudentDashboard`. -/
def initStudentDashState : StudentDashState :=
  { announcements := [], loading := true }

/-- `fetchAnnouncements` of the student dashboard: a `fetch` GET whose
parsed JSON replaces `announcements`; `res.ok` is never inspected; the
catch branch only logs to the console; `loading` is finally set false
either way. -/
def fetchAnnouncementsStudent (st : StudentDashState) (o : Outcome)
    (data : List Announcement) : StudentDashState × Effects :=
  match o with
  | Outcome.networkError =>
      ({ st with loading := false },
       { requests := [{ method := Method.GET, url := annUrl }]
         logs := ["Error fetching announcements:"] })
  | _ =>
      ({ st with announcements := data, loading := false },
       { requests := [{ method := Method.GET, url := annUrl }] })

/-! ## The claim-side normalization function and concrete fixtures -/

/-- The normalization the specification describes: an expanded object
maps to its `_id`, a bare identifier string is kept unchanged. -/
def fkRawId {α : Type} (getId : α → String) : FKField α → String
  | FKField.pop o => getId o
  | FKField.raw s => s

/-- A concrete course whose foreign keys arrive expanded and bare. -/
def sampleCourse : Course :=
  { _id := "c1", courseCode := "FOR101", courseTitle := "Silviculture"
    creditUnits := NumVal.num 3
    lecturer := FKField.pop { _id := "L1", fullName := some "Dr. Bello" }
    level := FKField.raw "NDI"
    semester := "First Semester"
    department := FKField.pop { _id := "D1", name := "Forestry Tech" } }

/-- A concrete announcement record. -/
def sampleAnn : Announcement :=
  { _id := "a1", title := "Exams", message := "Exams start soon"
    createdAt := "2025-01-01" }

/-- Course-page state holding one cached course, with a filled form in
create mode whose select-backed fields are all still empty. -/
def emptySelectsState : CoursePageState :=
  { initCourseState with
    courses := [sampleCourse], isModalOpen := true
    courseCode := "FOR101", courseTitle := "Silviculture"
    creditUnits := NumVal.num 3 }

/-- Course-page state with a fully filled form in create mode. -/
def filledCreateState : CoursePageState :=
  { emptySelectsState with
    lecturer := "L1", level := "NDI"
    semester := "First Semester", department := "D1" }

/-- Course-page state with a fully filled form in edit mode. -/
def filledEditState : CoursePageState :=
  { filledCreateState with editId := some "c1" }

/-- Course-page state whose form fails the submit validation. -/
def invalidFormState : CoursePageState :=
  { filledCreateState with courseCode := "" }

/-- Course-page state with the reset-default numeric value (`0`) and
every select-backed field still empty. -/
def zeroCreditState : CoursePageState :=
  { initCourseState with courseCode := "FOR101", courseTitle := "Silviculture" }

/-- Admin dashboard state holding one announcement, with a filled draft
in create mode. -/
def filledAnnState : AdminDashState :=
  { initAdminDashState with
    announcements := [sampleAnn], title := "Exams", message := "Exams start soon" }

/-- Admin dashboard state with a filled draft in edit mode. -/
def filledAnnEditState : AdminDashState :=
  { filledAnnState with editId := some "a1" }

/-- Student dashboard state holding one cached announcement. -/
def studentCachedState : StudentDashState :=
  { announcements := [sampleAnn], loading := false }

/-! ## Helper lemmas -/

/-- The course refetch always issues exactly the one GET request. -/
lemma fetchCourses_requests (st : CoursePageState) (o : Outcome) (rd : List Course) :
    (fetchCourses st o rd).2.requests = [{ method := Method.GET, url := coursesUrl }] := by
  cases o <;> rfl

/-! ## Claims -/

/-- **C1**: `openModal` normalizes every foreign-key field (lecturer,
level, department) of the given course to its raw identifier string
before populating the form draft: an expanded object contributes its
`_id`, a bare string is kept unchanged — so the draft (typed `String`)
never holds an expanded object. -/
theorem openModal_normalizes_foreign_keys (st : CoursePageState) (c : Course) :
    (openModal st (some c)).lecturer = fkRawId LecturerPopulated._id c.lecturer ∧
    (openModal st (some c)).level = fkRawId LevelPopulated._id c.level ∧
    (openModal st (some c)).department = fkRawId DepartmentPopulated._id c.department := by
  obtain ⟨i, cc, ct, cu, l, lv, sem, d⟩ := c
  refine ⟨?_, ?_, ?_⟩ <;> first
    | (cases l <;> rfl)
    | (cases lv <;> rfl)
    | (cases d <;> rfl)

/-- **C7**: declining the interactive confirmation prompt makes both
delete handlers return the state unchanged with no request, no
notification and no reload; after confirmation the delete request to the
record endpoint is issued. -/
theorem decline_confirm_issues_no_request
    (stc : CoursePageState) (sta : AdminDashState) (id : String)
    (o ro : Outcome) (rd : List Course) :
    handleDeleteCourses stc id false o ro rd = (stc, Effects.none) ∧
    handleDeleteAnn sta id false o = (sta, Effects.none) ∧
    (handleDeleteCourses stc id true o ro rd).2.requests.head? =
      some { method := Method.DELETE, url := coursesUrl ++ "/" ++ id } ∧
    (handleDeleteAnn sta id true o).2.requests =
      [{ method := Method.DELETE, url := annUrl ++ "/" ++ id }] := by
  refine ⟨rfl, rfl, ?_, ?_⟩ <;> cases o <;> rfl

/-- **C9 counterexample**: on the announcements page, after selecting
edit on a record, closing the dialog (which runs no page code — the
dialog has no close/cancel handler) leaves the editing identifier set,
so it is not cleared on every cancel/close of the form as claimed. -/
theorem ann_dialog_close_keeps_edit_id :
    (annDialogClose (annEditClick initAdminDashState sampleAnn)).editId = some "a1" := rfl

/-- **C9 (amended)**: the editing identifier starts `null` on both
pages, is set to the target record's identifier on edit selection, and
is cleared on submit success on both pages; on the course page it is
also cleared by `closeModal` (cancel/close), while on the announcements
page closing the dialog runs no page code and preserves all state,
`editId` included. -/
theorem edit_id_lifecycle
    (stc : CoursePageState) (sta : AdminDashState) (c : Course) (a : Announcement)
    (ro : Outcome) (rd : List Course) (token errMsg : Option String)
    (hvc : ¬ courseFormInvalid stc) (hva : ¬ (sta.title = "" ∨ sta.message = "")) :
    initCourseState.editId = none ∧
    initAdminDashState.editId = none ∧
    (openModal stc (some c)).editId = some c._id ∧
    (openModal stc none).editId = none ∧
    (closeModal stc).editId = none ∧
    (handleSubmitCourses stc Outcome.success ro rd).1.editId = none ∧
    (annEditClick sta a).editId = some a._id ∧
    (handleSubmitAnn sta token Outcome.success errMsg).1.editId = none ∧
    annDialogClose sta = sta := by
  refine ⟨rfl, rfl, rfl, rfl, rfl, ?_, rfl, ?_, rfl⟩
  · simp only [handleSubmitCourses, if_neg hvc]
    rfl
  · simp only [handleSubmitAnn, if_neg hva]

/-- Witness for `edit_id_lifecycle` at concrete states. -/
theorem edit_id_lifecycle_witness :
    (handleSubmitCourses filledCreateState Outcome.success Outcome.success []).1.editId = none :=
  (edit_id_lifecycle filledCreateState filledAnnState sampleCourse sampleAnn
    Outcome.success [] none none (by decide) (by decide)).2.2.2.2.2.1

/-- **C4 counterexample**: the announcement delete call carries no
`Authorization` header at all — its single request has `auth = none` —
so not every announcement mutation call attaches a bearer token. -/
theorem ann_delete_lacks_auth_header :
    ((handleDeleteAnn filledAnnState "a1" true Outcome.success).2.requests.map
      Request.auth) = [none] := rfl

/-- **C4 (amended)**: announcement create and update calls attach an
`Authorization: Bearer ${token}` header with the token read from local
storage; the announcement delete call attaches no such header; and no
course mutation call attaches one (the shared axios instance, modelled
per the specification, adds no Authorization header). -/
theorem auth_header_only_on_ann_create_update
    (sta : AdminDashState) (stc : CoursePageState) (token errMsg : Option String)
    (o ro : Outcome) (rd : List Course) (id : String)
    (hva : ¬ (sta.title = "" ∨ sta.message = "")) (hvc : ¬ courseFormInvalid stc) :
    ((handleSubmitAnn sta token o errMsg).2.requests.map Request.auth =
      [some (bearerValue token)]) ∧
    ((handleDeleteAnn sta id true o).2.requests.map Request.auth = [none]) ∧
    (∀ r ∈ (handleSubmitCourses stc o ro rd).2.requests, r.auth = none) ∧
    (∀ r ∈ (handleDeleteCourses stc id true o ro rd).2.requests, r.auth = none) := by
  refine ⟨?_, ?_, ?_, ?_⟩
  · simp only [handleSubmitAnn, if_neg hva]
    cases sta.editId <;> cases o <;> rfl
  · cases o <;> rfl
  · simp only [handleSubmitCourses, if_neg hvc]
    cases stc.editId <;> cases o <;>
      (intro r hr
       simp only [fetchCourses_requests, List.mem_cons, List.mem_singleton,
         List.not_mem_nil, or_false] at hr
       first
         | (rcases hr with h | h <;> (subst h; rfl))
         | (subst hr; rfl))
  · unfold handleDeleteCourses
    cases o <;>
      (intro r hr
       simp only [if_true, fetchCourses_requests, List.mem_cons, List.mem_singleton,
         List.not_mem_nil, or_false] at hr
       first
         | (rcases hr with h | h <;> (subst h; rfl))
         | (subst hr; rfl))

/-- Witness for `auth_header_only_on_ann_create_update` at concrete
states. -/
theorem auth_header_witness :
    (handleSubmitAnn filledAnnState (some "tok") Outcome.success none).2.requests.map
      Request.auth = [some (bearerValue (some "tok"))] :=
  (auth_header_only_on_ann_create_update filledAnnState filledCreateState (some "tok")
    none Outcome.success Outcome.success [] "c1" (by decide) (by decide)).1

/-- **C3 counterexample**: a course submission whose lecturer, level,
semester and department fields are all empty passes the handler
validation anyway: it issues requests and shows the create success
toast, not the validation notification, contradicting the claim that
any empty required field blocks with zero requests. -/
theorem empty_select_fields_still_submit :
    (handleSubmitCourses emptySelectsState Outcome.success Outcome.success []).2.requests
      ≠ [] ∧
    (handleSubmitCourses emptySelectsState Outcome.success Outcome.success []).2.notes.head?
      = some "Course created." := ⟨by decide, rfl⟩

/-- **C3 (amended)**: the course submit handler blocks — zero requests,
validation toast, state unchanged — precisely on its own validation
condition, which covers only an empty `courseCode`, an empty
`courseTitle`, or a NaN `creditUnits` (empty lecturer, level, semester
or department do not block); an announcement submission with an empty
title or message likewise issues zero requests and shows the validation
alert. -/
theorem validation_blocks_submit
    (stc : CoursePageState) (sta : AdminDashState)
    (o ro : Outcome) (rd : List Course) (token errMsg : Option String)
    (hc : courseFormInvalid stc) (ha : sta.title = "" ∨ sta.message = "") :
    handleSubmitCourses stc o ro rd =
      (stc, { notes := ["Please fill in all required fields."] }) ∧
    handleSubmitAnn sta token o errMsg =
      (sta, { notes := ["Fill in all fields."] }) := by
  constructor
  · simp only [handleSubmitCourses, if_pos hc]
  · simp only [handleSubmitAnn, if_pos ha]

/-- Witness for `validation_blocks_submit` at concrete states. -/
theorem validation_blocks_submit_witness :
    handleSubmitCourses invalidFormState Outcome.success Outcome.success [] =
      (invalidFormState, { notes := ["Please fill in all required fields."] }) :=
  (validation_blocks_submit invalidFormState initAdminDashState Outcome.success
    Outcome.success [] none none (by decide) (Or.inl rfl)).1

/-- **C10**: the course submit handler issues zero requests exactly when
`courseCode` or `courseTitle` is the empty string or `creditUnits` is
NaN; in particular a create-mode form with `creditUnits = 0` and empty
lecturer, level, semester and department (the reset defaults) passes
validation and the issued create request carries those empty values. -/
theorem course_validation_exact
    (st : CoursePageState) (o ro : Outcome) (rd : List Course) :
    ((handleSubmitCourses st o ro rd).2.requests = [] ↔
      (st.courseCode = "" ∨ st.courseTitle = "" ∨ st.creditUnits = NumVal.nan)) ∧
    (st.creditUnits = NumVal.num 0 → st.lecturer = "" → st.level = "" →
     st.semester = "" → st.department = "" → st.editId = none →
     st.courseCode ≠ "" → st.courseTitle ≠ "" →
     (handleSubmitCourses st o ro rd).2.requests.head? =
       some { method := Method.POST, url := coursesUrl
              body := ReqBody.course st.courseCode st.courseTitle (NumVal.num 0)
                "" "" "" "" }) := by
  by_cases h : courseFormInvalid st
  · constructor
    · unfold handleSubmitCourses
      rw [if_pos h]
      exact iff_of_true rfl h
    · intro h1 h2 h3 h4 h5 h6 h7 h8
      rcases h with hc | hc | hc
      · exact absurd hc h7
      · exact absurd hc h8
      · rw [h1] at hc; exact absurd hc (by decide)
  · constructor
    · simp only [handleSubmitCourses, if_neg h]
      refine iff_of_false ?_ h
      cases heid : st.editId <;> cases o <;>
        simp [fetchCourses_requests]
    · intro h1 h2 h3 h4 h5 h6 h7 h8
      simp only [handleSubmitCourses, if_neg h]
      rw [h6]
      cases o <;>
        simp [courseDataOf, h1, h2, h3, h4, h5]

/-- Witness for `course_validation_exact` at the reset-default form
state (`creditUnits = 0`, empty selects). -/
theorem course_validation_exact_witness :
    (handleSubmitCourses zeroCreditState Outcome.success Outcome.success []).2.requests.head?
      = some { method := Method.POST, url := coursesUrl
               body := ReqBody.course "FOR101" "Silviculture" (NumVal.num 0)
                 "" "" "" "" } :=
  (course_validation_exact zeroCreditState Outcome.success Outcome.success []).2
    rfl rfl rfl rfl rfl rfl (by decide) (by decide)

/-- **C2 counterexample**: an announcement delete whose backend call
fails with an HTTP error status (the `fetch` promise resolves and
`res.ok` is never inspected) produces the success alert `"Deleted"` and
a page reload, not the failure notification the claim requires. -/
theorem ann_delete_failure_shows_success :
    (handleDeleteAnn filledAnnState "a1" true Outcome.httpError).2.notes = ["Deleted"] ∧
    (handleDeleteAnn filledAnnState "a1" true Outcome.httpError).2.reload = true :=
  ⟨rfl, rfl⟩

/-- **C2 (amended)**: a failed backend call leaves the displayed
collection unchanged, shows a failure notification, and for
create/update leaves the draft intact for retry — for all course
mutations (axios rejects on HTTP error and network error alike) and for
announcement create/update; for the announcement delete this holds only
when the promise rejects (network-level failure), because the handler
never inspects the response status. -/
theorem failed_mutation_preserves_state
    (stc : CoursePageState) (sta : AdminDashState)
    (o ro : Outcome) (rd : List Course) (id : String) (token errMsg : Option String)
    (hvc : ¬ courseFormInvalid stc) (hva : ¬ (sta.title = "" ∨ sta.message = ""))
    (ho : o ≠ Outcome.success) :
    ((handleSubmitCourses stc o ro rd).1 = stc ∧
     (handleSubmitCourses stc o ro rd).2.notes = ["Failed to save course."] ∧
     (handleSubmitCourses stc o ro rd).2.reload = false) ∧
    ((handleDeleteCourses stc id true o ro rd).1 = stc ∧
     (handleDeleteCourses stc id true o ro rd).2.notes = ["Failed to delete course."]) ∧
    ((handleSubmitAnn sta token Outcome.networkError errMsg).1.announcements
        = sta.announcements ∧
     (handleSubmitAnn sta token Outcome.networkError errMsg).1.title = sta.title ∧
     (handleSubmitAnn sta token Outcome.networkError errMsg).1.message = sta.message ∧
     (handleSubmitAnn sta token Outcome.networkError errMsg).1.editId = sta.editId ∧
     (handleSubmitAnn sta token Outcome.networkError errMsg).2.notes = ["Server error"] ∧
     (handleSubmitAnn sta token Outcome.networkError errMsg).2.reload = false) ∧
    ((handleSubmitAnn sta token Outcome.httpError errMsg).1.announcements
        = sta.announcements ∧
     (handleSubmitAnn sta token Outcome.httpError errMsg).1.title = sta.title ∧
     (handleSubmitAnn sta token Outcome.httpError errMsg).1.message = sta.message ∧
     (handleSubmitAnn sta token Outcome.httpError errMsg).1.editId = sta.editId ∧
     (handleSubmitAnn sta token Outcome.httpError errMsg).2.notes =
       [errMsg.getD "Failed to submit"] ∧
     (handleSubmitAnn sta token Outcome.httpError errMsg).2.reload = false) ∧
    ((handleDeleteAnn sta id true Outcome.networkError).1 = sta ∧
     (handleDeleteAnn sta id true Outcome.networkError).2.notes = ["Delete failed"] ∧
     (handleDeleteAnn sta id true Outcome.networkError).2.reload = false) := by
  refine ⟨?_, ?_, ?_, ?_, ⟨rfl, rfl, rfl⟩⟩
  · unfold handleSubmitCourses
    rw [if_neg hvc]
    cases o with
    | success => exact absurd rfl ho
    | httpError => exact ⟨rfl, rfl, rfl⟩
    | networkError => exact ⟨rfl, rfl, rfl⟩
  · unfold handleDeleteCourses
    cases o with
    | success => exact absurd rfl ho
    | httpError => exact ⟨rfl, rfl⟩
    | networkError => exact ⟨rfl, rfl⟩
  · unfold handleSubmitAnn
    rw [if_neg hva]
    exact ⟨rfl, rfl, rfl, rfl, rfl, rfl⟩
  · unfold handleSubmitAnn
    rw [if_neg hva]
    exact ⟨rfl, rfl, rfl, rfl, rfl, rfl⟩

/-- Witness for `failed_mutation_preserves_state` at concrete states. -/
theorem failed_mutation_witness :
    (handleSubmitCourses filledCreateState Outcome.networkError Outcome.success []).1 =
      filledCreateState :=
  (failed_mutation_preserves_state filledCreateState filledAnnState Outcome.networkError
    Outcome.success [] "c1" none none (by decide) (by decide) (by decide)).1.1

/-- **C5**: for every valid submission, a non-null editing identifier
routes to a PUT on the record endpoint and a null one to a create POST;
on success the record store is refreshed (course refetch GET resp. page
reload for announcements) and the form is closed and cleared, on both
pages. -/
theorem submit_routes_and_success_cleanup
    (stc : CoursePageState) (sta : AdminDashState)
    (o ro : Outcome) (rd : List Course) (token errMsg : Option String)
    (hvc : ¬ courseFormInvalid stc) (hva : ¬ (sta.title = "" ∨ sta.message = "")) :
    (∀ id, stc.editId = some id →
      (handleSubmitCourses stc o ro rd).2.requests.head? =
        some { method := Method.PUT, url := coursesUrl ++ "/" ++ id
               body := courseDataOf stc }) ∧
    (stc.editId = none →
      (handleSubmitCourses stc o ro rd).2.requests.head? =
        some { method := Method.POST, url := coursesUrl, body := courseDataOf stc }) ∧
    ({ method := Method.GET, url := coursesUrl } : Request) ∈
      (handleSubmitCourses stc Outcome.success ro rd).2.requests ∧
    (handleSubmitCourses stc Outcome.success ro rd).1.isModalOpen = false ∧
    (handleSubmitCourses stc Outcome.success ro rd).1.editId = none ∧
    (∀ id, sta.editId = some id →
      (handleSubmitAnn sta token o errMsg).2.requests =
        [{ method := Method.PUT, url := annUrl ++ "/" ++ id
           auth := some (bearerValue token)
           body := ReqBody.ann sta.title sta.message }]) ∧
    (sta.editId = none →
      (handleSubmitAnn sta token o errMsg).2.requests =
        [{ method := Method.POST, url := annUrl
           auth := some (bearerValue token)
           body := ReqBody.ann sta.title sta.message }]) ∧
    (handleSubmitAnn sta token Outcome.success errMsg).2.reload = true ∧
    (handleSubmitAnn sta token Outcome.success errMsg).1.title = "" ∧
    (handleSubmitAnn sta token Outcome.success errMsg).1.message = "" ∧
    (handleSubmitAnn sta token Outcome.success errMsg).1.editId = none := by
  refine ⟨?_, ?_, ?_, ?_, ?_, ?_, ?_, ?_, ?_, ?_, ?_⟩
  · intro id hid
    unfold handleSubmitCourses
    rw [if_neg hvc, hid]
    cases o <;> rfl
  · intro hid
    unfold handleSubmitCourses
    rw [if_neg hvc, hid]
    cases o <;> rfl
  · unfold handleSubmitCourses
    rw [if_neg hvc]
    simp [fetchCourses_requests]
  · unfold handleSubmitCourses
    rw [if_neg hvc]
    rfl
  · unfold handleSubmitCourses
    rw [if_neg hvc]
    rfl
  · intro id hid
    unfold handleSubmitAnn
    rw [if_neg hva, hid]
    cases o <;> rfl
  · intro hid
    unfold handleSubmitAnn
    rw [if_neg hva, hid]
    cases o <;> rfl
  · unfold handleSubmitAnn
    rw [if_neg hva]
  · unfold handleSubmitAnn
    rw [if_neg hva]
  · unfold handleSubmitAnn
    rw [if_neg hva]
  · unfold handleSubmitAnn
    rw [if_neg hva]

/-- Witness for `submit_routes_and_success_cleanup` at concrete edit
states. -/
theorem submit_routes_witness :
    (handleSubmitCourses filledEditState Outcome.success Outcome.success []).2.requests.head?
      = some { method := Method.PUT, url := coursesUrl ++ "/" ++ "c1"
               body := courseDataOf filledEditState } :=
  (submit_routes_and_success_cleanup filledEditState filledAnnEditState Outcome.success
    Outcome.success [] (some "tok") none (by decide) (by decide)).1 "c1" rfl

/-- **C6**: a valid create-mode course submission issues exactly one
create POST followed by exactly one refetch GET of the course
collection (the full request list is those two requests), and on
success every form field is cleared: strings to empty, `creditUnits` to
zero, `editId` to null, and the modal closes. -/
theorem create_submit_exact_effects
    (st : CoursePageState) (ro : Outcome) (rd : List Course)
    (hv : ¬ courseFormInvalid st) (he : st.editId = none) :
    (handleSubmitCourses st Outcome.success ro rd).2.requests =
      [{ method := Method.POST, url := coursesUrl, body := courseDataOf st },
       { method := Method.GET, url := coursesUrl }] ∧
    (handleSubmitCourses st Outcome.success ro rd).1.courseCode = "" ∧
    (handleSubmitCourses st Outcome.success ro rd).1.courseTitle = "" ∧
    (handleSubmitCourses st Outcome.success ro rd).1.creditUnits = NumVal.num 0 ∧
    (handleSubmitCourses st Outcome.success ro rd).1.lecturer = "" ∧
    (handleSubmitCourses st Outcome.success ro rd).1.level = "" ∧
    (handleSubmitCourses st Outcome.success ro rd).1.semester = "" ∧
    (handleSubmitCourses st Outcome.success ro rd).1.department = "" ∧
    (handleSubmitCourses st Outcome.success ro rd).1.editId = none ∧
    (handleSubmitCourses st Outcome.success ro rd).1.isModalOpen = false := by
  unfold handleSubmitCourses
  rw [if_neg hv, he]
  refine ⟨?_, rfl, rfl, rfl, rfl, rfl, rfl, rfl, rfl, rfl⟩
  simp [fetchCourses_requests]

/-- Witness for `create_submit_exact_effects` at a concrete filled
create-mode state. -/
theorem create_submit_witness :
    (handleSubmitCourses filledCreateState Outcome.success Outcome.success []).2.requests =
      [{ method := Method.POST, url := coursesUrl, body := courseDataOf filledCreateState },
       { method := Method.GET, url := coursesUrl }] :=
  (create_submit_exact_effects filledCreateState Outcome.success [] (by decide) rfl).1

/-- **C8 counterexample**: the student-dashboard announcements fetch
violates the claim in two ways.  A rejected fetch leaves the cached
list untouched but surfaces no user notification at all — the failure
is only written to the console.  And a resolved HTTP-error response
(`res.ok` is never inspected) has its parsed body stored like success,
replacing the prior cache instead of leaving it untouched. -/
theorem ann_fetch_failure_console_only :
    (fetchAnnouncementsStudent studentCachedState Outcome.networkError []).1.announcements
      = [sampleAnn] ∧
    (fetchAnnouncementsStudent studentCachedState Outcome.networkError []).2.notes = [] ∧
    (fetchAnnouncementsStudent studentCachedState Outcome.networkError []).2.logs =
      ["Error fetching announcements:"] ∧
    (fetchAnnouncementsStudent studentCachedState Outcome.httpError []).1.announcements
      = [] := ⟨rfl, rfl, rfl, rfl⟩

/-- **C8 (amended)**: every collection fetch on success replaces the
cached sequence wholesale with the response.  The axios-based course,
lecturer and department fetches leave the prior cache untouched on
every failure (HTTP error and rejection alike) and surface a generic
toast.  The fetch-based announcement loads of the admin and student
dashboards never inspect the response status: a resolved HTTP-error
response is parsed and stored, replacing the cache like success, and
only a rejected request leaves the prior cache untouched — logged to
the console only, with no user notification. -/
theorem load_replaces_wholesale_or_preserves
    (stc : CoursePageState) (sta : AdminDashState) (sts : StudentDashState)
    (dc : List Course) (dl : List Lecturer) (dd : List Department)
    (da : List Announcement) (o : Outcome) (ho : o ≠ Outcome.success) :
    (fetchCourses stc Outcome.success dc).1.courses = dc ∧
    (fetchLecturers stc Outcome.success dl).1.lecturers = dl ∧
    (fetchDepartments stc Outcome.success dd).1.departments = dd ∧
    (fetchAnnouncementsAdmin sta Outcome.success da).1.announcements = da ∧
    (fetchAnnouncementsStudent sts Outcome.success da).1.announcements = da ∧
    ((fetchCourses stc o dc).1.courses = stc.courses ∧
     (fetchCourses stc o dc).2.notes = ["Failed to fetch courses."]) ∧
    ((fetchLecturers stc o dl).1.lecturers = stc.lecturers ∧
     (fetchLecturers stc o dl).2.notes = ["Failed to fetch lecturers."]) ∧
    ((fetchDepartments stc o dd).1.departments = stc.departments ∧
     (fetchDepartments stc o dd).2.notes = ["Failed to fetch departments."]) ∧
    ((fetchAnnouncementsAdmin sta Outcome.httpError da).1.announcements = da ∧
     (fetchAnnouncementsStudent sts Outcome.httpError da).1.announcements = da) ∧
    ((fetchAnnouncementsAdmin sta Outcome.networkError da).1 = sta ∧
     (fetchAnnouncementsAdmin sta Outcome.networkError da).2.notes = [] ∧
     (fetchAnnouncementsAdmin sta Outcome.networkError da).2.logs =
       ["Error fetching announcements"]) ∧
    ((fetchAnnouncementsStudent sts Outcome.networkError da).1.announcements =
       sts.announcements ∧
     (fetchAnnouncementsStudent sts Outcome.networkError da).2.notes = [] ∧
     (fetchAnnouncementsStudent sts Outcome.networkError da).2.logs =
       ["Error fetching announcements:"]) := by
  refine ⟨rfl, rfl, rfl, rfl, rfl, ?_, ?_, ?_, ⟨rfl, rfl⟩, ⟨rfl, rfl, rfl⟩,
    ⟨rfl, rfl, rfl⟩⟩ <;>
    (cases o with
     | success => exact absurd rfl ho
     | httpError => exact ⟨rfl, rfl⟩
     | networkError => exact ⟨rfl, rfl⟩)

/-- Witness for `load_replaces_wholesale_or_preserves` at concrete
states. -/
theorem load_replaces_witness :
    (fetchCourses emptySelectsState Outcome.networkError []).1.courses =
      emptySelectsState.courses :=
  (load_replaces_wholesale_or_preserves emptySelectsState filledAnnState
    studentCachedState [] [] [] [] Outcome.networkError (by decide)).2.2.2.2.2.1.1

end Forestry
